import Mathlib

/-!
Verification development for the MCP client of `kirara_ai` (`src/kirara_ai/mcp/server.py`).

The file embeds, as Lean definitions, the three parts of `MCPServer` that the
specification talks about:

* the RPC facade (`get_tools`, `call_tool`, ..., `send_ping`, `send_notification`,
  lines 177-341 of `server.py`), modelled as pure functions from the client's
  `session` attribute to either a locally raised Python error or the single RPC
  verb delegated to the bound `mcp.ClientSession`;
* the notification dispatcher (`message_handler_callback`, lines 282-312),
  modelled as a pure function from the inbound message to the effects the body
  performs (cache-invalidation hook calls on the manager, warning logs,
  executed scheduler checkpoints);
* the connection state machine (`connect` / `disconnect` / `_lifecycle_manager`,
  lines 48-173), modelled as a small-step transition system whose atomic steps
  are the code segments between consecutive `await` suspension points of the
  asyncio event loop.
-/

namespace KiraraMCP

/-- Connection lifecycle states of the client (`kirara_ai.mcp.models.MCPConnectionState`;
all five values appear in `server.py`). -/
inductive MCPConnectionState
  | DISCONNECTED
  | CONNECTING
  | CONNECTED
  | DISCONNECTING
  | ERROR
deriving DecidableEq

/-- Opaque external RPC session object (`mcp.ClientSession`).  The facade only
ever tests `self.session` for presence (`is not None`) before delegating, so the
object itself carries no data in the model. -/
inductive ClientSession
  | mk
deriving DecidableEq

/-- Local Python error raised by a facade operation that never reaches the session.
`assertionFailed` is the `AssertionError` of `assert self.session is not None`
(the code's realization of the spec's `NotConnected`); `attributeError` is the
`AttributeError` Python raises when a method is invoked on a `None` session;
`validationError` is the `pydantic_core.ValidationError` raised when
`AnyUrl(resource_name)` is constructed from a malformed locator (the code's
realization of the spec's `InvalidResourceLocator`). -/
inductive FacadeError
  | assertionFailed
  | attributeError
  | validationError
deriving DecidableEq

/-- `types.PromptReference(name=..., type=...)` as built by `MCPServer.complete`. -/
structure PromptReference where
  name : String
  refType : String
deriving DecidableEq

/-- `pydantic.AnyUrl` (pydantic v2) as built by the resource operations: a URL
that has been parsed and accepted at construction time. -/
structure AnyUrl where
  url : String
deriving DecidableEq

/-- Scan for the first `"://"` separator: the locator is well formed when a
nonempty scheme precedes it and a nonempty remainder follows it. -/
def wellFormedUrlAux : List Char → Bool → Bool
  | ':' :: '/' :: '/' :: rest, seenScheme => seenScheme && !rest.isEmpty
  | _ :: cs, _ => wellFormedUrlAux cs true
  | [], _ => false

/-- Well-formedness of a resource locator, the model of what pydantic v2's URL
parser accepts: a nonempty scheme, `"://"`, and a nonempty remainder (host and
path).  Pydantic's URL normalization (case folding, trailing slash) is not
modelled; it does not affect which inputs are accepted. -/
def wellFormedUrl (s : String) : Bool :=
  wellFormedUrlAux s.toList false

/-- `AnyUrl(resource_name)` construction (pydantic v2): parsing happens at
construction time, so a malformed locator raises `ValidationError` locally —
before any delegation to the session — while a well-formed one yields the
wrapped locator. -/
def AnyUrl.parse (s : String) : Except FacadeError AnyUrl :=
  if wellFormedUrl s then .ok ⟨s⟩ else .error .validationError

/-- Tool / prompt argument mapping (the `dict` parameters of the facade). -/
abbrev ToolArgs := List (String × String)

/-- The RPC verb, with its arguments, that a facade operation delegates to the
bound session.  Producing one of these values is the single remote round trip
(transport I/O) of the operation; a `FacadeError` result performs none. -/
inductive SessionCall
  | listTools
  | callTool (toolName : String) (toolArgs : ToolArgs)
  | completeCall (ref : PromptReference) (toolArgs : ToolArgs)
  | getPrompt (promptName : String) (promptArgs : ToolArgs)
  | listPrompts
  | listResources
  | listResourceTemplates
  | readResource (uri : AnyUrl)
  | subscribeResource (uri : AnyUrl)
  | unsubscribeResource (uri : AnyUrl)
  | sendPing
  | sendNotificationCall (note : String)
deriving DecidableEq

/-- `assert self.session is not None` — raises `AssertionError` when the session
is absent, otherwise passes. -/
def assertSessionNotNone (session : Option ClientSession) : Except FacadeError Unit :=
  match session with
  | none => .error .assertionFailed
  | some _ => .ok ()

/-- Invoking a method on `self.session`: on a `None` session Python raises
`AttributeError`; on a bound session the verb is delegated verbatim. -/
def invokeSession (session : Option ClientSession) (call : SessionCall) :
    Except FacadeError SessionCall :=
  match session with
  | none => .error .attributeError
  | some _ => .ok call

/-- `MCPServer.get_tools` (lines 177-180): assert, then `self.session.list_tools()`. -/
def get_tools (session : Option ClientSession) : Except FacadeError SessionCall := do
  let _ ← assertSessionNotNone session
  invokeSession session .listTools

/-- `MCPServer.call_tool` (lines 182-194): assert, then
`self.session.call_tool(tool_name, tool_args)`.  The body performs no validation
of `tool_name` or `tool_args`. -/
def call_tool (session : Option ClientSession) (tool_name : String)
    (tool_args : ToolArgs) : Except FacadeError SessionCall := do
  let _ ← assertSessionNotNone session
  invokeSession session (.callTool tool_name tool_args)

/-- `MCPServer.complete` (lines 196-208): assert, then
`self.session.complete(types.PromptReference(name=prompt, type="ref/prompt"), tool_args)`. -/
def complete (session : Option ClientSession) (prompt : String)
    (tool_args : ToolArgs) : Except FacadeError SessionCall := do
  let _ ← assertSessionNotNone session
  invokeSession session (.completeCall ⟨prompt, "ref/prompt"⟩ tool_args)

/-- `MCPServer.get_prompt` (lines 212-224). -/
def get_prompt (session : Option ClientSession) (prompt_name : String)
    (prompt_args : ToolArgs) : Except FacadeError SessionCall := do
  let _ ← assertSessionNotNone session
  invokeSession session (.getPrompt prompt_name prompt_args)

/-- `MCPServer.list_prompts` (lines 226-229). -/
def list_prompts (session : Option ClientSession) : Except FacadeError SessionCall := do
  let _ ← assertSessionNotNone session
  invokeSession session .listPrompts

/-- `MCPServer.list_resources` (lines 233-236). -/
def list_resources (session : Option ClientSession) : Except FacadeError SessionCall := do
  let _ ← assertSessionNotNone session
  invokeSession session .listResources

/-- `MCPServer.list_resource_templates` (lines 238-241). -/
def list_resource_templates (session : Option ClientSession) :
    Except FacadeError SessionCall := do
  let _ ← assertSessionNotNone session
  invokeSession session .listResourceTemplates

/-- `MCPServer.read_resource` (lines 243-254): assert, then
`self.session.read_resource(AnyUrl(resource_name))` — the `AnyUrl` argument is
constructed (and validated) before the session method runs, so a malformed
locator fails locally with `ValidationError` and no round trip occurs. -/
def read_resource (session : Option ClientSession) (resource_name : String) :
    Except FacadeError SessionCall := do
  let _ ← assertSessionNotNone session
  let uri ← AnyUrl.parse resource_name
  invokeSession session (.readResource uri)

/-- `MCPServer.subscribe_resource` (lines 256-267): assert, then
`self.session.subscribe_resource(AnyUrl(resource_name))`, with the same
construction-time locator validation. -/
def subscribe_resource (session : Option ClientSession) (resource_name : String) :
    Except FacadeError SessionCall := do
  let _ ← assertSessionNotNone session
  let uri ← AnyUrl.parse resource_name
  invokeSession session (.subscribeResource uri)

/-- `MCPServer.unsubscribe_resource` (lines 269-280): assert, then
`self.session.unsubscribe_resource(AnyUrl(resource_name))`, with the same
construction-time locator validation. -/
def unsubscribe_resource (session : Option ClientSession) (resource_name : String) :
    Except FacadeError SessionCall := do
  let _ ← assertSessionNotNone session
  let uri ← AnyUrl.parse resource_name
  invokeSession session (.unsubscribeResource uri)

/-- `MCPServer.send_ping` (lines 327-328): the body is the single statement
`await self.session.send_ping()` — there is no `assert self.session is not None`
in this operation, unlike every other facade operation. -/
def send_ping (session : Option ClientSession) : Except FacadeError SessionCall :=
  invokeSession session .sendPing

/-- `MCPServer.send_notification` (lines 330-341): assert, then
`self.session.send_notification(notification)`. -/
def send_notification (session : Option ClientSession) (note : String) :
    Except FacadeError SessionCall := do
  let _ ← assertSessionNotNone session
  invokeSession session (.sendNotificationCall note)

/-- Inbound push message delivered by the session to `message_handler_callback`.
The constructors correspond to the `isinstance` branches of the body: the three
list-changed notification types, any other server notification kind, a
`RequestResponder` value, and an `Exception` payload. -/
inductive ServerMessage
  | toolListChangedNotification
  | promptListChangedNotification
  | resourceListChangedNotification
  | otherNotificationKind (kind : String)
  | requestResponderValue (kind : String)
  | exceptionPayload (message : String)
deriving DecidableEq

/-- Observable effects of one run of `message_handler_callback`: the server ids
passed to the manager's three cache-invalidation hooks (`_update_tools_cache`,
`_update_prompts_cache`, `_update_resources_cache`), the number of
`logger.warning` calls, the number of cooperative scheduler checkpoints actually
executed (awaited), and the number of checkpoint coroutine objects created but
never awaited. -/
structure NotificationEffects where
  toolsCacheUpdates : List String
  promptsCacheUpdates : List String
  resourcesCacheUpdates : List String
  warningsLogged : Nat
  checkpointsExecuted : Nat
  unawaitedCheckpointCoroutines : Nat
deriving DecidableEq

/-- `MCPServer.message_handler_callback` (lines 282-312).  The `isinstance`
chain invokes exactly one cache hook for each of the three list-changed
notification kinds and logs a warning for everything else.  The final statement
(line 312) is `anyio.lowlevel.checkpoint()` WITHOUT `await`: in Python this
creates the checkpoint coroutine object and immediately discards it, so no
scheduler checkpoint is executed on any path — modelled by
`checkpointsExecuted := 0` and `unawaitedCheckpointCoroutines := 1`. -/
def message_handler_callback (serverId : String) (req : ServerMessage) :
    NotificationEffects :=
  let handled : NotificationEffects :=
    match req with
    | .toolListChangedNotification => ⟨[serverId], [], [], 0, 0, 0⟩
    | .promptListChangedNotification => ⟨[], [serverId], [], 0, 0, 0⟩
    | .resourceListChangedNotification => ⟨[], [], [serverId], 0, 0, 0⟩
    | _ => ⟨[], [], [], 1, 0, 0⟩
  { handled with
      unawaitedCheckpointCoroutines := handled.unawaitedCheckpointCoroutines + 1 }

/-- The attributes of the client that an inbound message handler could mutate. -/
structure ClientView where
  state : MCPConnectionState
  session : Option ClientSession
deriving DecidableEq

/-- One full run of `message_handler_callback` seen together with the client's
own attributes: the body reads `self.server_config.id` and calls manager hooks
but assigns no attribute of `self`, so the client view passes through unchanged. -/
def message_handler_run (serverId : String) (c : ClientView) (req : ServerMessage) :
    ClientView × NotificationEffects :=
  (c, message_handler_callback serverId req)

/-- Program counter of the lifecycle task (`_lifecycle_manager`, lines 123-173).
Each value is an `await` suspension point of its body (or the absence /
completion of the task); the code between two consecutive suspension points
runs atomically under asyncio's cooperative scheduling. -/
inductive TaskPC
  | noTask
  | atTransport
  | atSession
  | atInit
  | atShutdownWait
  | atClose
  | finished
deriving DecidableEq

/-- The task is suspended inside the `try` body (lines 131-156). -/
def TaskPC.inTry : TaskPC → Bool
  | .atTransport | .atSession | .atInit | .atShutdownWait => true
  | _ => false

/-- The task object exists and is not done (negation of
`self._lifecycle_task is None or self._lifecycle_task.done()`). -/
def TaskPC.alive : TaskPC → Bool
  | .noTask | .finished => false
  | _ => true

/-- `self._lifecycle_task is None or self._lifecycle_task.done()` (line 68). -/
def TaskPC.isDone : TaskPC → Bool
  | .noTask | .finished => true
  | _ => false

/-- Program counter of the single API caller thread, which issues `connect()` /
`disconnect()` calls one at a time.  The three distinct false returns of
`connect` (guard at line 58, state check at line 76, timeout path at line 81)
get distinct labels; `connDJoin` / `connDJoin2` are the suspension points of the
`disconnect()` that the timeout path of `connect` runs internally (line 80). -/
inductive CallerPC
  | idle
  | connWaiting
  | connDJoin
  | connDJoin2
  | connDoneTrue
  | connDoneFalseGuard
  | connDoneFalseState
  | connDoneFalseTimeout
  | discJoin
  | discJoin2
  | discDoneTrue
deriving DecidableEq

/-- The caller holds a returned result and may issue the next call. -/
def CallerPC.isReturn : CallerPC → Bool
  | .connDoneTrue | .connDoneFalseGuard | .connDoneFalseState
  | .connDoneFalseTimeout | .discDoneTrue => true
  | _ => false

/-- The caller is suspended joining the lifecycle task inside a `disconnect`
body (lines 107 and 112, whether the external call or the one `connect` runs
internally on timeout). -/
def CallerPC.joining : CallerPC → Bool
  | .connDJoin | .connDJoin2 | .discJoin | .discJoin2 => true
  | _ => false

/-- Observable configuration of one `MCPServer` instance together with the
caller thread.  `spawnCount`, `cleanupRuns` and `activeTasks` are ghost
counters: `spawnCount` counts `asyncio.create_task` calls (line 69),
`cleanupRuns` counts executions of the `finally` cleanup block of the lifecycle
task (lines 163-169: clear `self.session`, release the exit stack), and
`activeTasks` counts lifecycle tasks that have been created and are not yet
done. -/
structure Sys where
  state : MCPConnectionState
  sessionBound : Bool
  connectedEvent : Bool
  shutdownEvent : Bool
  task : TaskPC
  cancelRequested : Bool
  caller : CallerPC
  spawnCount : Nat
  cleanupRuns : Nat
  activeTasks : Nat
deriving DecidableEq

/-- State right after `__init__` (lines 32-46): `DISCONNECTED`, no session, both
events clear, no lifecycle task. -/
def initSys : Sys :=
  { state := .DISCONNECTED, sessionBound := false, connectedEvent := false,
    shutdownEvent := false, task := .noTask, cancelRequested := false,
    caller := .idle, spawnCount := 0, cleanupRuns := 0, activeTasks := 0 }

/-- Atomic steps of the client under asyncio's cooperative scheduler.  Each
constructor is one maximal code segment between `await` suspension points of
`connect`, `disconnect` or `_lifecycle_manager`.  Modelling notes, in order of
relevance to the source:

* timer expiry of an `asyncio.wait_for` is modelled as a step that may fire
  whenever the caller is parked at that wait (real deadlines may race with the
  awaited condition, so this over-approximates timing);
* the lifecycle task's first segment (lines 129-144, transport selection from
  the fixed, well-formed server config) has no observable effect, so task
  creation places the task directly at the line-145 transport `await`;
* failure of the external transport or session primitives may occur at each of
  the three `await`s of the `try` body; it is handled by lines 158-162 followed
  by the `finally` block, all without an intervening suspension;
* cancellation (`self._lifecycle_task.cancel()`, line 110) raises
  `CancelledError` at the task's suspension point; on Python >= 3.8 it is not
  an `Exception`, so it skips the `except` clause and runs the `finally`
  cleanup before the task completes;
* the `except` clauses of `connect` (line 83) and `disconnect` (line 118) are
  unreachable in the model because the event and task primitives they guard do
  not themselves raise;
* `exit_stack.aclose()` is modelled as always succeeding. -/
inductive Step : Sys → Sys → Prop
  /-- `connect`, lines 57-58: state is neither DISCONNECTED nor ERROR, return
  False immediately. -/
  | connectRejected {s : Sys} (hc : s.caller = .idle)
      (h1 : s.state ≠ .DISCONNECTED) (h2 : s.state ≠ .ERROR) :
      Step s { s with caller := .connDoneFalseGuard }
  /-- `connect`, lines 61-73, with the line-68 guard true: set CONNECTING,
  clear both events, create the lifecycle task, then suspend on
  `wait_for(self._connected_event.wait(), timeout=30.0)`. -/
  | connectStartSpawn {s : Sys} (hc : s.caller = .idle)
      (hg : s.state = .DISCONNECTED ∨ s.state = .ERROR)
      (ht : s.task.isDone = true) :
      Step s { s with state := .CONNECTING, shutdownEvent := false,
                      connectedEvent := false, task := .atTransport,
                      cancelRequested := false, spawnCount := s.spawnCount + 1,
                      activeTasks := s.activeTasks + 1, caller := .connWaiting }
  /-- `connect`, lines 61-73, with the line-68 guard false (a previous task is
  still running): same segment without creating a task. -/
  | connectStartNoSpawn {s : Sys} (hc : s.caller = .idle)
      (hg : s.state = .DISCONNECTED ∨ s.state = .ERROR)
      (ht : s.task.isDone = false) :
      Step s { s with state := .CONNECTING, shutdownEvent := false,
                      connectedEvent := false, caller := .connWaiting }
  /-- `connect`, lines 73-77: the readiness event fired, state observed
  CONNECTED, return True. -/
  | connectTrue {s : Sys} (hc : s.caller = .connWaiting)
      (he : s.connectedEvent = true) (hs : s.state = .CONNECTED) :
      Step s { s with caller := .connDoneTrue }
  /-- `connect`, lines 73-76: the readiness event fired, state observed is not
  CONNECTED, return False. -/
  | connectFalseState {s : Sys} (hc : s.caller = .connWaiting)
      (he : s.connectedEvent = true) (hs : s.state ≠ .CONNECTED) :
      Step s { s with caller := .connDoneFalseState }
  /-- `connect`, lines 78-81, timeout, then `disconnect` line 95: state already
  DISCONNECTED, the internal disconnect is a no-op; return False. -/
  | connectTimeoutDiscNoop {s : Sys} (hc : s.caller = .connWaiting)
      (hs : s.state = .DISCONNECTED) :
      Step s { s with caller := .connDoneFalseTimeout }
  /-- `connect`, lines 78-81, timeout, then `disconnect` lines 99-107 with a
  live task: set DISCONNECTING, raise the shutdown event, suspend on
  `wait_for(self._lifecycle_task, timeout=10.0)`. -/
  | connectTimeoutDiscJoin {s : Sys} (hc : s.caller = .connWaiting)
      (hs : s.state ≠ .DISCONNECTED) (ht : s.task.alive = true) :
      Step s { s with state := .DISCONNECTING, shutdownEvent := true,
                      caller := .connDJoin }
  /-- `connect`, lines 78-81, timeout, then `disconnect` lines 99-117 with no
  live task: DISCONNECTING then DISCONNECTED in one segment; return False. -/
  | connectTimeoutDiscNoTask {s : Sys} (hc : s.caller = .connWaiting)
      (hs : s.state ≠ .DISCONNECTED) (ht : s.task.alive = false) :
      Step s { s with state := .DISCONNECTED, shutdownEvent := true,
                      caller := .connDoneFalseTimeout }
  /-- internal `disconnect` lines 107 and 116-117: the joined task completed;
  mark DISCONNECTED; `connect` returns False (line 81). -/
  | connectDJoinDone {s : Sys} (hc : s.caller = .connDJoin)
      (ht : s.task = .finished) :
      Step s { s with state := .DISCONNECTED, caller := .connDoneFalseTimeout }
  /-- internal `disconnect` lines 108-112: the 10-unit join timed out; cancel
  the task and suspend awaiting it again. -/
  | connectDJoinTimeout {s : Sys} (hc : s.caller = .connDJoin) :
      Step s { s with cancelRequested := true, caller := .connDJoin2 }
  /-- internal `disconnect` lines 112-117 after the forced cancel: the task
  completed; mark DISCONNECTED; `connect` returns False. -/
  | connectDJoin2Done {s : Sys} (hc : s.caller = .connDJoin2)
      (ht : s.task = .finished) :
      Step s { s with state := .DISCONNECTED, caller := .connDoneFalseTimeout }
  /-- the caller consumed a returned result and may issue the next call. -/
  | callerAck {s : Sys} (hc : s.caller.isReturn = true) :
      Step s { s with caller := .idle }
  /-- `disconnect`, lines 95-96: already DISCONNECTED, return True. -/
  | discNoop {s : Sys} (hc : s.caller = .idle) (hs : s.state = .DISCONNECTED) :
      Step s { s with caller := .discDoneTrue }
  /-- `disconnect`, lines 99-107 with a live task: set DISCONNECTING, raise the
  shutdown event, suspend on `wait_for(self._lifecycle_task, timeout=10.0)`. -/
  | discStartJoin {s : Sys} (hc : s.caller = .idle)
      (hs : s.state ≠ .DISCONNECTED) (ht : s.task.alive = true) :
      Step s { s with state := .DISCONNECTING, shutdownEvent := true,
                      caller := .discJoin }
  /-- `disconnect`, lines 99-117 with no live task: one segment ending
  DISCONNECTED, return True. -/
  | discStartNoTask {s : Sys} (hc : s.caller = .idle)
      (hs : s.state ≠ .DISCONNECTED) (ht : s.task.alive = false) :
      Step s { s with state := .DISCONNECTED, shutdownEvent := true,
                      caller := .discDoneTrue }
  /-- `disconnect`, lines 107 and 116-117: the joined task completed; mark
  DISCONNECTED and return True. -/
  | discJoinDone {s : Sys} (hc : s.caller = .discJoin)
      (ht : s.task = .finished) :
      Step s { s with state := .DISCONNECTED, caller := .discDoneTrue }
  /-- `disconnect`, lines 108-112: the 10-unit join timed out; cancel the task
  and suspend awaiting it again. -/
  | discJoinTimeout {s : Sys} (hc : s.caller = .discJoin) :
      Step s { s with cancelRequested := true, caller := .discJoin2 }
  /-- `disconnect`, lines 112-117 after the forced cancel: the task completed;
  mark DISCONNECTED and return True. -/
  | discJoin2Done {s : Sys} (hc : s.caller = .discJoin2)
      (ht : s.task = .finished) :
      Step s { s with state := .DISCONNECTED, caller := .discDoneTrue }
  /-- task line 145: the transport context entered successfully; proceed to the
  line-146 session `await`. -/
  | taskTransportOk {s : Sys} (ht : s.task = .atTransport) :
      Step s { s with task := .atSession }
  /-- task line 145 raising: lines 158-162 (state ERROR, readiness event set,
  log) then the `finally` cleanup (session cleared), suspend at `aclose()`. -/
  | taskTransportFail {s : Sys} (ht : s.task = .atTransport) :
      Step s { s with state := .ERROR, connectedEvent := true,
                      sessionBound := false, cleanupRuns := s.cleanupRuns + 1,
                      task := .atClose }
  /-- task line 146: the `ClientSession` context entered; `self.session` is
  assigned, then suspend at `self.session.initialize()` (line 149). -/
  | taskSessionOk {s : Sys} (ht : s.task = .atSession) :
      Step s { s with sessionBound := true, task := .atInit }
  /-- task line 146 raising: error branch plus `finally`, as above. -/
  | taskSessionFail {s : Sys} (ht : s.task = .atSession) :
      Step s { s with state := .ERROR, connectedEvent := true,
                      sessionBound := false, cleanupRuns := s.cleanupRuns + 1,
                      task := .atClose }
  /-- task lines 149-156: `initialize()` succeeded; set CONNECTED, set the
  readiness event, suspend on `self._shutdown_event.wait()`. -/
  | taskInitOk {s : Sys} (ht : s.task = .atInit) :
      Step s { s with state := .CONNECTED, connectedEvent := true,
                      task := .atShutdownWait }
  /-- task line 149 raising: error branch plus `finally`, as above. -/
  | taskInitFail {s : Sys} (ht : s.task = .atInit) :
      Step s { s with state := .ERROR, connectedEvent := true,
                      sessionBound := false, cleanupRuns := s.cleanupRuns + 1,
                      task := .atClose }
  /-- task line 156: the shutdown event is set and the task is rescheduled; the
  `try` body ends, the `finally` cleanup clears the session, suspend at
  `aclose()` (line 169). -/
  | taskShutdownWake {s : Sys} (ht : s.task = .atShutdownWait)
      (hsh : s.shutdownEvent = true) :
      Step s { s with sessionBound := false, cleanupRuns := s.cleanupRuns + 1,
                      task := .atClose }
  /-- cancellation delivered at a suspension point of the `try` body:
  `CancelledError` skips the `except Exception` clause; the `finally` cleanup
  clears the session, suspend at `aclose()`. -/
  | taskCancelled {s : Sys} (ht : s.task.inTry = true)
      (hcr : s.cancelRequested = true) :
      Step s { s with sessionBound := false, cleanupRuns := s.cleanupRuns + 1,
                      task := .atClose }
  /-- task lines 169-173: `aclose()` returned; if the state is still
  DISCONNECTING move it to DISCONNECTED; the task completes. -/
  | taskCloseDone {s : Sys} (ht : s.task = .atClose) :
      Step s { s with state := if s.state = .DISCONNECTING
                               then .DISCONNECTED else s.state,
                      task := .finished, activeTasks := s.activeTasks - 1 }

/-- Configurations reachable from the freshly constructed client by atomic
steps. -/
inductive Reach : Sys → Prop
  | init : Reach initSys
  | step {s s' : Sys} (h : Reach s) (hs : Step s s') : Reach s'

/-- Configuration of a freshly connected client: the lifecycle task completed
`initialize()` and parks at the shutdown wait, and `connect()` has just
returned True. -/
def sysConnected : Sys :=
  { state := .CONNECTED, sessionBound := true, connectedEvent := true,
    shutdownEvent := false, task := .atShutdownWait, cancelRequested := false,
    caller := .connDoneTrue, spawnCount := 1, cleanupRuns := 0, activeTasks := 1 }

/-- Same configuration once the caller has consumed the True result. -/
def sysConnectedIdle : Sys :=
  { sysConnected with caller := .idle }

/-- Configuration in the middle of `disconnect()` on a connected client: the
caller has set DISCONNECTING, raised the shutdown event and suspended joining
the lifecycle task, which has not yet run its cleanup — the session reference
is still bound. -/
def sysDiscJoin : Sys :=
  { state := .DISCONNECTING, sessionBound := true, connectedEvent := true,
    shutdownEvent := true, task := .atShutdownWait, cancelRequested := false,
    caller := .discJoin, spawnCount := 1, cleanupRuns := 0, activeTasks := 1 }

/-- Configuration after a `disconnect()` on a connected client whose lifecycle
task had to be cancelled forcibly at the 10-unit join timeout: the `finally`
cleanup ran exactly once and the state is DISCONNECTED. -/
def sysDiscDone : Sys :=
  { state := .DISCONNECTED, sessionBound := false, connectedEvent := true,
    shutdownEvent := true, task := .finished, cancelRequested := true,
    caller := .discDoneTrue, spawnCount := 1, cleanupRuns := 1, activeTasks := 0 }

/-- Configuration after a `connect()` whose 30-unit readiness wait timed out
while the task hung in `initialize()`: the internal `disconnect()` cancelled
the task and `connect` has returned False; the state is DISCONNECTED. -/
def sysTimeoutDone : Sys :=
  { state := .DISCONNECTED, sessionBound := false, connectedEvent := false,
    shutdownEvent := true, task := .finished, cancelRequested := true,
    caller := .connDoneFalseTimeout, spawnCount := 1, cleanupRuns := 1,
    activeTasks := 0 }

/-- Inductive invariant of the transition system.  Field guide:
`i1a`/`i1b`: the session is bound exactly while the task sits at the
`initialize()` or shutdown waits (it is assigned at line 146 and cleared at
line 165); `i2`: the ghost task counter matches task liveness; `i3a`-`i3c`:
the `finally` cleanup has run exactly once per created task once the task
reaches the close point; `i4`: DISCONNECTED implies no live task; `i5`-`i7`:
what holds at each return point of `connect`/`disconnect`; `i8`: CONNECTED
with no shutdown requested pins the task at the shutdown wait; `i9`-`i11`:
bookkeeping for the join/cancel windows; `i13`-`i15`: which states are
possible at each task suspension point. -/
structure Inv (s : Sys) : Prop where
  i1a : s.sessionBound = true → s.task = .atInit ∨ s.task = .atShutdownWait
  i1b : s.task = .atInit ∨ s.task = .atShutdownWait → s.sessionBound = true
  i2 : s.activeTasks = if s.task.alive = true then 1 else 0
  i3a : s.task.inTry = true → s.cleanupRuns + 1 = s.spawnCount
  i3b : s.task = .atClose ∨ s.task = .finished → s.cleanupRuns = s.spawnCount
  i3c : s.task = .noTask → s.cleanupRuns = 0 ∧ s.spawnCount = 0
  i4 : s.state = .DISCONNECTED → s.task = .noTask ∨ s.task = .finished
  i5 : s.caller = .connDoneFalseTimeout →
      s.state = .DISCONNECTED ∧ (s.task = .noTask ∨ s.task = .finished)
  i6 : s.caller = .discDoneTrue →
      s.state = .DISCONNECTED ∧ (s.task = .noTask ∨ s.task = .finished)
  i7 : s.caller = .connDoneTrue →
      s.state = .CONNECTED ∧ s.sessionBound = true ∧
      s.task = .atShutdownWait ∧ s.shutdownEvent = false
  i8 : s.state = .CONNECTED → s.shutdownEvent = false → s.task = .atShutdownWait
  i9 : s.caller.joining = true → s.shutdownEvent = true
  i10 : s.cancelRequested = true → s.task.inTry = true →
      s.caller = .connDJoin2 ∨ s.caller = .discJoin2
  i11 : s.caller = .connWaiting → s.shutdownEvent = false
  i13 : s.task = .atInit → s.state = .CONNECTING ∨ s.state = .DISCONNECTING
  i14 : s.task = .atShutdownWait → s.state = .CONNECTED ∨ s.state = .DISCONNECTING
  i15 : s.task = .atTransport ∨ s.task = .atSession →
      s.state = .CONNECTING ∨ s.state = .DISCONNECTING

theorem TaskPC.not_alive_cases {t : TaskPC} (h : t.alive = false) :
    t = .noTask ∨ t = .finished := by
  cases t <;> simp [TaskPC.alive] at h ⊢

theorem TaskPC.isDone_cases {t : TaskPC} (h : t.isDone = true) :
    t = .noTask ∨ t = .finished := by
  cases t <;> simp [TaskPC.isDone] at h ⊢

theorem TaskPC.alive_of_inTry {t : TaskPC} (h : t.inTry = true) :
    t.alive = true := by
  cases t <;> simp [TaskPC.inTry, TaskPC.alive] at h ⊢

theorem inv_init : Inv initSys := by
  constructor <;> decide

theorem inv_step {s s' : Sys} (h : Inv s) (hst : Step s s') : Inv s' := by
  cases hst with
  | connectRejected hc h1 h2 =>
      refine ⟨h.i1a, h.i1b, h.i2, h.i3a, h.i3b, h.i3c, h.i4,
        nofun, nofun, nofun, h.i8, nofun, ?_, nofun, h.i13, h.i14, h.i15⟩
      intro hcr hit
      rcases h.i10 hcr hit with hx | hx <;> rw [hc] at hx <;> exact nomatch hx
  | connectStartSpawn hc hg ht =>
      refine ⟨?_, ?_, ?_, ?_, ?_, nofun, nofun, nofun, nofun, nofun, nofun,
        nofun, nofun, fun _ => rfl, nofun, nofun, fun _ => Or.inl rfl⟩
      · intro hx
        rcases h.i1a hx with h' | h' <;> rw [h'] at ht <;> exact nomatch ht
      · intro hx
        rcases hx with hx | hx <;> exact nomatch hx
      · have h2 := h.i2
        rcases TaskPC.isDone_cases ht with h' | h' <;> rw [h'] at h2 <;>
          simp [TaskPC.alive] at h2 <;> simp [TaskPC.alive, h2]
      · intro hx
        show s.cleanupRuns + 1 = s.spawnCount + 1
        rcases TaskPC.isDone_cases ht with h' | h'
        · have h3 := h.i3c h'
          omega
        · have h3 := h.i3b (Or.inr h')
          omega
      · intro hx
        rcases hx with hx | hx <;> exact nomatch hx
  | connectStartNoSpawn hc hg ht =>
      refine ⟨h.i1a, h.i1b, h.i2, h.i3a, h.i3b, h.i3c, nofun, nofun, nofun,
        nofun, nofun, nofun, ?_, fun _ => rfl, fun _ => Or.inl rfl, ?_,
        fun _ => Or.inl rfl⟩
      · intro hcr hit
        rcases h.i10 hcr hit with hx | hx <;> rw [hc] at hx <;> exact nomatch hx
      · intro hx
        rcases h.i14 hx with h' | h' <;> rcases hg with hg | hg <;>
          rw [hg] at h' <;> exact nomatch h'
  | connectTrue hc he hs =>
      refine ⟨h.i1a, h.i1b, h.i2, h.i3a, h.i3b, h.i3c, h.i4, nofun, nofun, ?_,
        h.i8, nofun, ?_, nofun, h.i13, h.i14, h.i15⟩
      · intro _
        have hsh := h.i11 hc
        have htk := h.i8 hs hsh
        exact ⟨hs, h.i1b (Or.inr htk), htk, hsh⟩
      · intro hcr hit
        rcases h.i10 hcr hit with hx | hx <;> rw [hc] at hx <;> exact nomatch hx
  | connectFalseState hc he hs =>
      refine ⟨h.i1a, h.i1b, h.i2, h.i3a, h.i3b, h.i3c, h.i4, nofun, nofun,
        nofun, h.i8, nofun, ?_, nofun, h.i13, h.i14, h.i15⟩
      intro hcr hit
      rcases h.i10 hcr hit with hx | hx <;> rw [hc] at hx <;> exact nomatch hx
  | connectTimeoutDiscNoop hc hs =>
      refine ⟨h.i1a, h.i1b, h.i2, h.i3a, h.i3b, h.i3c, h.i4,
        fun _ => ⟨hs, h.i4 hs⟩, nofun, nofun, h.i8, nofun, ?_, nofun,
        h.i13, h.i14, h.i15⟩
      intro hcr hit
      rcases h.i10 hcr hit with hx | hx <;> rw [hc] at hx <;> exact nomatch hx
  | connectTimeoutDiscJoin hc hs ht =>
      refine ⟨h.i1a, h.i1b, h.i2, h.i3a, h.i3b, h.i3c, nofun, nofun, nofun,
        nofun, nofun, fun _ => rfl, ?_, nofun, fun _ => Or.inr rfl,
        fun _ => Or.inr rfl, fun _ => Or.inr rfl⟩
      intro hcr hit
      rcases h.i10 hcr hit with hx | hx <;> rw [hc] at hx <;> exact nomatch hx
  | connectTimeoutDiscNoTask hc hs ht =>
      refine ⟨?_, ?_, h.i2, h.i3a, h.i3b, h.i3c,
        fun _ => TaskPC.not_alive_cases ht,
        fun _ => ⟨rfl, TaskPC.not_alive_cases ht⟩, nofun, nofun, nofun, nofun,
        ?_, nofun, ?_, ?_, ?_⟩
      · intro hx
        rcases h.i1a hx with h' | h' <;> rw [h'] at ht <;> exact nomatch ht
      · intro hx
        rcases hx with hx | hx <;> rw [hx] at ht <;> exact nomatch ht
      · intro _ hit
        rw [TaskPC.alive_of_inTry hit] at ht
        exact nomatch ht
      · intro hx
        rw [hx] at ht
        exact nomatch ht
      · intro hx
        rw [hx] at ht
        exact nomatch ht
      · intro hx
        rcases hx with hx | hx <;> rw [hx] at ht <;> exact nomatch ht
  | connectDJoinDone hc ht =>
      refine ⟨?_, ?_, h.i2, h.i3a, h.i3b, h.i3c, fun _ => Or.inr ht,
        fun _ => ⟨rfl, Or.inr ht⟩, nofun, nofun, nofun, nofun, ?_, nofun,
        ?_, ?_, ?_⟩
      · intro hx
        rcases h.i1a hx with h' | h' <;> rw [h'] at ht <;> exact nomatch ht
      · intro hx
        rcases hx with hx | hx <;> rw [ht] at hx <;> exact nomatch hx
      · intro _ hit
        rw [ht] at hit
        exact nomatch hit
      · intro hx
        rw [ht] at hx
        exact nomatch hx
      · intro hx
        rw [ht] at hx
        exact nomatch hx
      · intro hx
        rcases hx with hx | hx <;> rw [ht] at hx <;> exact nomatch hx
  | connectDJoinTimeout hc =>
      refine ⟨h.i1a, h.i1b, h.i2, h.i3a, h.i3b, h.i3c, h.i4, nofun, nofun,
        nofun, h.i8, fun _ => h.i9 (by rw [hc]; rfl), fun _ _ => Or.inl rfl, nofun,
        h.i13, h.i14, h.i15⟩
  | connectDJoin2Done hc ht =>
      refine ⟨?_, ?_, h.i2, h.i3a, h.i3b, h.i3c, fun _ => Or.inr ht,
        fun _ => ⟨rfl, Or.inr ht⟩, nofun, nofun, nofun, nofun, ?_, nofun,
        ?_, ?_, ?_⟩
      · intro hx
        rcases h.i1a hx with h' | h' <;> rw [h'] at ht <;> exact nomatch ht
      · intro hx
        rcases hx with hx | hx <;> rw [ht] at hx <;> exact nomatch hx
      · intro _ hit
        rw [ht] at hit
        exact nomatch hit
      · intro hx
        rw [ht] at hx
        exact nomatch hx
      · intro hx
        rw [ht] at hx
        exact nomatch hx
      · intro hx
        rcases hx with hx | hx <;> rw [ht] at hx <;> exact nomatch hx
  | callerAck hc =>
      refine ⟨h.i1a, h.i1b, h.i2, h.i3a, h.i3b, h.i3c, h.i4, nofun, nofun,
        nofun, h.i8, nofun, ?_, nofun, h.i13, h.i14, h.i15⟩
      intro hcr hit
      rcases h.i10 hcr hit with hx | hx <;> rw [hx] at hc <;> exact nomatch hc
  | discNoop hc hs =>
      refine ⟨h.i1a, h.i1b, h.i2, h.i3a, h.i3b, h.i3c, h.i4, nofun,
        fun _ => ⟨hs, h.i4 hs⟩, nofun, h.i8, nofun, ?_, nofun,
        h.i13, h.i14, h.i15⟩
      intro hcr hit
      rcases h.i10 hcr hit with hx | hx <;> rw [hc] at hx <;> exact nomatch hx
  | discStartJoin hc hs ht =>
      refine ⟨h.i1a, h.i1b, h.i2, h.i3a, h.i3b, h.i3c, nofun, nofun, nofun,
        nofun, nofun, fun _ => rfl, ?_, nofun, fun _ => Or.inr rfl,
        fun _ => Or.inr rfl, fun _ => Or.inr rfl⟩
      intro hcr hit
      rcases h.i10 hcr hit with hx | hx <;> rw [hc] at hx <;> exact nomatch hx
  | discStartNoTask hc hs ht =>
      refine ⟨?_, ?_, h.i2, h.i3a, h.i3b, h.i3c,
        fun _ => TaskPC.not_alive_cases ht, nofun,
        fun _ => ⟨rfl, TaskPC.not_alive_cases ht⟩, nofun, nofun, nofun,
        ?_, nofun, ?_, ?_, ?_⟩
      · intro hx
        rcases h.i1a hx with h' | h' <;> rw [h'] at ht <;> exact nomatch ht
      · intro hx
        rcases hx with hx | hx <;> rw [hx] at ht <;> exact nomatch ht
      · intro _ hit
        rw [TaskPC.alive_of_inTry hit] at ht
        exact nomatch ht
      · intro hx
        rw [hx] at ht
        exact nomatch ht
      · intro hx
        rw [hx] at ht
        exact nomatch ht
      · intro hx
        rcases hx with hx | hx <;> rw [hx] at ht <;> exact nomatch ht
  | discJoinDone hc ht =>
      refine ⟨?_, ?_, h.i2, h.i3a, h.i3b, h.i3c, fun _ => Or.inr ht, nofun,
        fun _ => ⟨rfl, Or.inr ht⟩, nofun, nofun, nofun, ?_, nofun,
        ?_, ?_, ?_⟩
      · intro hx
        rcases h.i1a hx with h' | h' <;> rw [h'] at ht <;> exact nomatch ht
      · intro hx
        rcases hx with hx | hx <;> rw [ht] at hx <;> exact nomatch hx
      · intro _ hit
        rw [ht] at hit
        exact nomatch hit
      · intro hx
        rw [ht] at hx
        exact nomatch hx
      · intro hx
        rw [ht] at hx
        exact nomatch hx
      · intro hx
        rcases hx with hx | hx <;> rw [ht] at hx <;> exact nomatch hx
  | discJoinTimeout hc =>
      refine ⟨h.i1a, h.i1b, h.i2, h.i3a, h.i3b, h.i3c, h.i4, nofun, nofun,
        nofun, h.i8, fun _ => h.i9 (by rw [hc]; rfl), fun _ _ => Or.inr rfl, nofun,
        h.i13, h.i14, h.i15⟩
  | discJoin2Done hc ht =>
      refine ⟨?_, ?_, h.i2, h.i3a, h.i3b, h.i3c, fun _ => Or.inr ht, nofun,
        fun _ => ⟨rfl, Or.inr ht⟩, nofun, nofun, nofun, ?_, nofun,
        ?_, ?_, ?_⟩
      · intro hx
        rcases h.i1a hx with h' | h' <;> rw [h'] at ht <;> exact nomatch ht
      · intro hx
        rcases hx with hx | hx <;> rw [ht] at hx <;> exact nomatch hx
      · intro _ hit
        rw [ht] at hit
        exact nomatch hit
      · intro hx
        rw [ht] at hx
        exact nomatch hx
      · intro hx
        rw [ht] at hx
        exact nomatch hx
      · intro hx
        rcases hx with hx | hx <;> rw [ht] at hx <;> exact nomatch hx
  | taskTransportOk ht =>
      refine ⟨?_, ?_, ?_, fun _ => h.i3a (by rw [ht]; rfl), ?_, nofun, ?_, ?_, ?_,
        ?_, ?_, h.i9, fun hcr _ => h.i10 hcr (by rw [ht]; rfl), h.i11, nofun, nofun,
        fun _ => h.i15 (Or.inl ht)⟩
      · intro hx
        rcases h.i1a hx with h' | h' <;> rw [h'] at ht <;> exact nomatch ht
      · intro hx
        rcases hx with hx | hx <;> exact nomatch hx
      · have h2 := h.i2
        rw [ht] at h2
        simpa [TaskPC.alive] using h2
      · intro hx
        rcases hx with hx | hx <;> exact nomatch hx
      · intro hx
        rcases h.i4 hx with h' | h' <;> rw [h'] at ht <;> exact nomatch ht
      · intro hx
        rcases (h.i5 hx).2 with h' | h' <;> rw [h'] at ht <;> exact nomatch ht
      · intro hx
        rcases (h.i6 hx).2 with h' | h' <;> rw [h'] at ht <;> exact nomatch ht
      · intro hx
        have h' := (h.i7 hx).2.2.1
        rw [h'] at ht
        exact nomatch ht
      · intro hstc hsf
        have h' := h.i8 hstc hsf
        rw [h'] at ht
        exact nomatch ht
  | taskTransportFail ht =>
      refine ⟨nofun, ?_, ?_, nofun, fun _ => h.i3a (by rw [ht]; rfl), nofun, nofun,
        ?_, ?_, ?_, nofun, h.i9, fun _ => nofun, h.i11, nofun, nofun, ?_⟩
      · intro hx
        rcases hx with hx | hx <;> exact nomatch hx
      · have h2 := h.i2
        rw [ht] at h2
        simpa [TaskPC.alive] using h2
      · intro hx
        rcases (h.i5 hx).2 with h' | h' <;> rw [h'] at ht <;> exact nomatch ht
      · intro hx
        rcases (h.i6 hx).2 with h' | h' <;> rw [h'] at ht <;> exact nomatch ht
      · intro hx
        have h' := (h.i7 hx).2.2.1
        rw [h'] at ht
        exact nomatch ht
      · intro hx
        rcases hx with hx | hx <;> exact nomatch hx
  | taskSessionOk ht =>
      refine ⟨fun _ => Or.inl rfl, fun _ => rfl, ?_,
        fun _ => h.i3a (by rw [ht]; rfl), ?_, nofun, ?_, ?_, ?_, ?_, ?_, h.i9,
        fun hcr _ => h.i10 hcr (by rw [ht]; rfl), h.i11,
        fun _ => h.i15 (Or.inr ht), nofun, ?_⟩
      · have h2 := h.i2
        rw [ht] at h2
        simpa [TaskPC.alive] using h2
      · intro hx
        rcases hx with hx | hx <;> exact nomatch hx
      · intro hx
        rcases h.i4 hx with h' | h' <;> rw [h'] at ht <;> exact nomatch ht
      · intro hx
        rcases (h.i5 hx).2 with h' | h' <;> rw [h'] at ht <;> exact nomatch ht
      · intro hx
        rcases (h.i6 hx).2 with h' | h' <;> rw [h'] at ht <;> exact nomatch ht
      · intro hx
        have h' := (h.i7 hx).2.2.1
        rw [h'] at ht
        exact nomatch ht
      · intro hstc hsf
        have h' := h.i8 hstc hsf
        rw [h'] at ht
        exact nomatch ht
      · intro hx
        rcases hx with hx | hx <;> exact nomatch hx
  | taskSessionFail ht =>
      refine ⟨nofun, ?_, ?_, nofun, fun _ => h.i3a (by rw [ht]; rfl), nofun, nofun,
        ?_, ?_, ?_, nofun, h.i9, fun _ => nofun, h.i11, nofun, nofun, ?_⟩
      · intro hx
        rcases hx with hx | hx <;> exact nomatch hx
      · have h2 := h.i2
        rw [ht] at h2
        simpa [TaskPC.alive] using h2
      · intro hx
        rcases (h.i5 hx).2 with h' | h' <;> rw [h'] at ht <;> exact nomatch ht
      · intro hx
        rcases (h.i6 hx).2 with h' | h' <;> rw [h'] at ht <;> exact nomatch ht
      · intro hx
        have h' := (h.i7 hx).2.2.1
        rw [h'] at ht
        exact nomatch ht
      · intro hx
        rcases hx with hx | hx <;> exact nomatch hx
  | taskInitOk ht =>
      refine ⟨fun _ => Or.inr rfl, fun _ => h.i1b (Or.inl ht), ?_,
        fun _ => h.i3a (by rw [ht]; rfl), ?_, nofun, nofun, ?_, ?_, ?_,
        fun _ _ => rfl, h.i9, fun hcr _ => h.i10 hcr (by rw [ht]; rfl), h.i11,
        nofun, fun _ => Or.inl rfl, ?_⟩
      · have h2 := h.i2
        rw [ht] at h2
        simpa [TaskPC.alive] using h2
      · intro hx
        rcases hx with hx | hx <;> exact nomatch hx
      · intro hx
        rcases (h.i5 hx).2 with h' | h' <;> rw [h'] at ht <;> exact nomatch ht
      · intro hx
        rcases (h.i6 hx).2 with h' | h' <;> rw [h'] at ht <;> exact nomatch ht
      · intro hx
        have h' := (h.i7 hx).2.2.1
        rw [h'] at ht
        exact nomatch ht
      · intro hx
        rcases hx with hx | hx <;> exact nomatch hx
  | taskInitFail ht =>
      refine ⟨nofun, ?_, ?_, nofun, fun _ => h.i3a (by rw [ht]; rfl), nofun, nofun,
        ?_, ?_, ?_, nofun, h.i9, fun _ => nofun, h.i11, nofun, nofun, ?_⟩
      · intro hx
        rcases hx with hx | hx <;> exact nomatch hx
      · have h2 := h.i2
        rw [ht] at h2
        simpa [TaskPC.alive] using h2
      · intro hx
        rcases (h.i5 hx).2 with h' | h' <;> rw [h'] at ht <;> exact nomatch ht
      · intro hx
        rcases (h.i6 hx).2 with h' | h' <;> rw [h'] at ht <;> exact nomatch ht
      · intro hx
        have h' := (h.i7 hx).2.2.1
        rw [h'] at ht
        exact nomatch ht
      · intro hx
        rcases hx with hx | hx <;> exact nomatch hx
  | taskShutdownWake ht hsh =>
      refine ⟨nofun, ?_, ?_, nofun, fun _ => h.i3a (by rw [ht]; rfl), nofun, ?_,
        ?_, ?_, ?_, ?_, h.i9, fun _ => nofun, ?_, nofun, nofun, ?_⟩
      · intro hx
        rcases hx with hx | hx <;> exact nomatch hx
      · have h2 := h.i2
        rw [ht] at h2
        simpa [TaskPC.alive] using h2
      · intro hx
        rcases h.i4 hx with h' | h' <;> rw [h'] at ht <;> exact nomatch ht
      · intro hx
        rcases (h.i5 hx).2 with h' | h' <;> rw [h'] at ht <;> exact nomatch ht
      · intro hx
        rcases (h.i6 hx).2 with h' | h' <;> rw [h'] at ht <;> exact nomatch ht
      · intro hx
        have h' := (h.i7 hx).2.2.2
        rw [h'] at hsh
        exact nomatch hsh
      · intro _ hsf
        rw [hsf] at hsh
        exact nomatch hsh
      · intro hx
        have h' := h.i11 hx
        rw [h'] at hsh
        exact nomatch hsh
      · intro hx
        rcases hx with hx | hx <;> exact nomatch hx
  | taskCancelled ht hcr =>
      refine ⟨nofun, ?_, ?_, nofun, fun _ => h.i3a ht, nofun, ?_, ?_, ?_, ?_,
        ?_, h.i9, fun _ => nofun, ?_, nofun, nofun, ?_⟩
      · intro hx
        rcases hx with hx | hx <;> exact nomatch hx
      · have h2 := h.i2
        rw [TaskPC.alive_of_inTry ht] at h2
        simpa [TaskPC.alive] using h2
      · intro hx
        rcases h.i4 hx with h' | h' <;> rw [h'] at ht <;> exact nomatch ht
      · intro hx
        rcases (h.i5 hx).2 with h' | h' <;> rw [h'] at ht <;> exact nomatch ht
      · intro hx
        rcases (h.i6 hx).2 with h' | h' <;> rw [h'] at ht <;> exact nomatch ht
      · intro hx
        rcases h.i10 hcr ht with h' | h' <;> rw [hx] at h' <;> exact nomatch h'
      · intro _ hsf
        rcases h.i10 hcr ht with h' | h' <;>
          (have h9 := h.i9 (by rw [h']; rfl); rw [h9] at hsf; exact nomatch hsf)
      · intro hx
        rcases h.i10 hcr ht with h' | h' <;> rw [hx] at h' <;> exact nomatch h'
      · intro hx
        rcases hx with hx | hx <;> exact nomatch hx
  | taskCloseDone ht =>
      refine ⟨?_, ?_, ?_, nofun, fun _ => h.i3b (Or.inl ht), nofun,
        fun _ => Or.inr rfl, ?_, ?_, ?_, ?_, h.i9, fun _ => nofun, h.i11,
        nofun, nofun, ?_⟩
      · intro hx
        rcases h.i1a hx with h' | h' <;> rw [h'] at ht <;> exact nomatch ht
      · intro hx
        rcases hx with hx | hx <;> exact nomatch hx
      · have h2 := h.i2
        rw [ht] at h2
        simp [TaskPC.alive] at h2
        simp [TaskPC.alive, h2]
      · intro hx
        rcases (h.i5 hx).2 with h' | h' <;> rw [h'] at ht <;> exact nomatch ht
      · intro hx
        rcases (h.i6 hx).2 with h' | h' <;> rw [h'] at ht <;> exact nomatch ht
      · intro hx
        have h' := (h.i7 hx).2.2.1
        rw [h'] at ht
        exact nomatch ht
      · intro hstc hsf
        by_cases hd : s.state = .DISCONNECTING
        · rw [if_pos hd] at hstc
          exact nomatch hstc
        · rw [if_neg hd] at hstc
          have h' := h.i8 hstc hsf
          rw [h'] at ht
          exact nomatch ht
      · intro hx
        rcases hx with hx | hx <;> exact nomatch hx

theorem inv_reach {s : Sys} (h : Reach s) : Inv s := by
  induction h with
  | init => exact inv_init
  | step _ hs ih => exact inv_step ih hs

/-- The step-by-step execution of a successful `connect()`: spawn, transport
entered, session entered, `initialize()` succeeded, readiness observed with
state CONNECTED. -/
theorem reach_sysConnected : Reach sysConnected := by
  have h1 : Reach
      { state := .CONNECTING, sessionBound := false, connectedEvent := false,
        shutdownEvent := false, task := .atTransport, cancelRequested := false,
        caller := .connWaiting, spawnCount := 1, cleanupRuns := 0,
        activeTasks := 1 } :=
    Reach.init.step (Step.connectStartSpawn rfl (Or.inl rfl) rfl)
  have h2 : Reach
      { state := .CONNECTING, sessionBound := false, connectedEvent := false,
        shutdownEvent := false, task := .atSession, cancelRequested := false,
        caller := .connWaiting, spawnCount := 1, cleanupRuns := 0,
        activeTasks := 1 } :=
    h1.step (Step.taskTransportOk rfl)
  have h3 : Reach
      { state := .CONNECTING, sessionBound := true, connectedEvent := false,
        shutdownEvent := false, task := .atInit, cancelRequested := false,
        caller := .connWaiting, spawnCount := 1, cleanupRuns := 0,
        activeTasks := 1 } :=
    h2.step (Step.taskSessionOk rfl)
  have h4 : Reach
      { state := .CONNECTED, sessionBound := true, connectedEvent := true,
        shutdownEvent := false, task := .atShutdownWait,
        cancelRequested := false, caller := .connWaiting, spawnCount := 1,
        cleanupRuns := 0, activeTasks := 1 } :=
    h3.step (Step.taskInitOk rfl)
  exact h4.step (Step.connectTrue rfl rfl rfl)

/-- Continuing from the connected configuration: the caller consumes the True
result and begins `disconnect()`, reaching the join suspension with the session
still bound. -/
theorem reach_sysDiscJoin : Reach sysDiscJoin := by
  have h1 : Reach sysConnectedIdle :=
    reach_sysConnected.step (Step.callerAck rfl)
  exact h1.step (Step.discStartJoin rfl (by decide) rfl)

/-- Continuing from the joining configuration with the task artificially held
at its suspension point: the 10-unit join times out, the task is cancelled, its
cleanup runs, and `disconnect()` returns True with the state DISCONNECTED. -/
theorem reach_sysDiscDone : Reach sysDiscDone := by
  have h1 : Reach
      { sysDiscJoin with cancelRequested := true,
                         caller := CallerPC.discJoin2 } :=
    reach_sysDiscJoin.step (Step.discJoinTimeout rfl)
  have h2 : Reach
      { state := .DISCONNECTING, sessionBound := false, connectedEvent := true,
        shutdownEvent := true, task := .atClose, cancelRequested := true,
        caller := .discJoin2, spawnCount := 1, cleanupRuns := 1,
        activeTasks := 1 } :=
    h1.step (Step.taskCancelled rfl rfl)
  have h3 : Reach
      { state := .DISCONNECTED, sessionBound := false, connectedEvent := true,
        shutdownEvent := true, task := .finished, cancelRequested := true,
        caller := .discJoin2, spawnCount := 1, cleanupRuns := 1,
        activeTasks := 0 } :=
    h2.step (Step.taskCloseDone rfl)
  exact h3.step (Step.discJoin2Done rfl rfl)

/-- The step-by-step execution of a `connect()` against a server that never
answers `initialize()` within the 30-unit readiness wait: the timeout fires,
the internal `disconnect()` joins, times out after 10 more units, cancels the
task, the cleanup runs, and `connect` returns False. -/
theorem reach_sysTimeoutDone : Reach sysTimeoutDone := by
  have h1 : Reach
      { state := .CONNECTING, sessionBound := false, connectedEvent := false,
        shutdownEvent := false, task := .atTransport, cancelRequested := false,
        caller := .connWaiting, spawnCount := 1, cleanupRuns := 0,
        activeTasks := 1 } :=
    Reach.init.step (Step.connectStartSpawn rfl (Or.inl rfl) rfl)
  have h2 : Reach
      { state := .CONNECTING, sessionBound := false, connectedEvent := false,
        shutdownEvent := false, task := .atSession, cancelRequested := false,
        caller := .connWaiting, spawnCount := 1, cleanupRuns := 0,
        activeTasks := 1 } :=
    h1.step (Step.taskTransportOk rfl)
  have h3 : Reach
      { state := .CONNECTING, sessionBound := true, connectedEvent := false,
        shutdownEvent := false, task := .atInit, cancelRequested := false,
        caller := .connWaiting, spawnCount := 1, cleanupRuns := 0,
        activeTasks := 1 } :=
    h2.step (Step.taskSessionOk rfl)
  have h4 : Reach
      { state := .DISCONNECTING, sessionBound := true, connectedEvent := false,
        shutdownEvent := true, task := .atInit, cancelRequested := false,
        caller := .connDJoin, spawnCount := 1, cleanupRuns := 0,
        activeTasks := 1 } :=
    h3.step (Step.connectTimeoutDiscJoin rfl (by decide) rfl)
  have h5 : Reach
      { state := .DISCONNECTING, sessionBound := true, connectedEvent := false,
        shutdownEvent := true, task := .atInit, cancelRequested := true,
        caller := .connDJoin2, spawnCount := 1, cleanupRuns := 0,
        activeTasks := 1 } :=
    h4.step (Step.connectDJoinTimeout rfl)
  have h6 : Reach
      { state := .DISCONNECTING, sessionBound := false,
        connectedEvent := false, shutdownEvent := true, task := .atClose,
        cancelRequested := true, caller := .connDJoin2, spawnCount := 1,
        cleanupRuns := 1, activeTasks := 1 } :=
    h5.step (Step.taskCancelled rfl rfl)
  have h7 : Reach
      { state := .DISCONNECTED, sessionBound := false, connectedEvent := false,
        shutdownEvent := true, task := .finished, cancelRequested := true,
        caller := .connDJoin2, spawnCount := 1, cleanupRuns := 1,
        activeTasks := 0 } :=
    h6.step (Step.taskCloseDone rfl)
  exact h7.step (Step.connectDJoin2Done rfl rfl)

/-- Helper: with a session bound, binding a parsed locator into a session
delegation is the same as mapping the delegation over the parse result — the
locator error, when any, passes through and no delegation happens. -/
theorem bind_parse_eq_map (sess : ClientSession) (e : Except FacadeError AnyUrl)
    (f : AnyUrl → SessionCall) :
    (e.bind fun uri => invokeSession (some sess) (f uri)) = Except.map f e := by
  cases e <;> rfl

/-- C1 counterexample: the claim says every RPC facade operation, `send_ping`
included, fails with `NotConnected` (the assertion failure) when no session is
bound.  At the concrete input `session = none`, `send_ping` instead raises the
attribute-access error of dereferencing a `None` session, which is a different
failure from the assertion failure that `get_tools` (and every other checked
operation) raises. -/
theorem c1_counterexample :
    send_ping none = Except.error FacadeError.attributeError ∧
    send_ping none ≠ Except.error FacadeError.assertionFailed ∧
    get_tools none = Except.error FacadeError.assertionFailed ∧
    FacadeError.attributeError ≠ FacadeError.assertionFailed := by
  refine ⟨rfl, ?_, rfl, by decide⟩
  intro hx
  simp [send_ping, invokeSession] at hx

/-- C1 amended: every RPC facade operation except `send_ping` fails with the
`NotConnected` assertion failure when no session is bound and performs no
delegation; when a session is bound, each operation delegates to the session's
corresponding call, except that the three resource-addressing operations first
construct `AnyUrl(resource_name)`: a malformed locator fails locally with the
pydantic `ValidationError` and no delegation occurs, while a well-formed one
delegates the parsed locator.  `send_ping` performs no session check: with no
session it fails with the attribute-access error instead. -/
theorem c1_amended_facade_contract :
    ∀ (sess : ClientSession) (nm res note prompt : String) (args : ToolArgs),
    get_tools none = Except.error FacadeError.assertionFailed ∧
    get_tools (some sess) = Except.ok SessionCall.listTools ∧
    call_tool none nm args = Except.error FacadeError.assertionFailed ∧
    call_tool (some sess) nm args = Except.ok (SessionCall.callTool nm args) ∧
    complete none prompt args = Except.error FacadeError.assertionFailed ∧
    complete (some sess) prompt args =
      Except.ok (SessionCall.completeCall ⟨prompt, "ref/prompt"⟩ args) ∧
    get_prompt none nm args = Except.error FacadeError.assertionFailed ∧
    get_prompt (some sess) nm args = Except.ok (SessionCall.getPrompt nm args) ∧
    list_prompts none = Except.error FacadeError.assertionFailed ∧
    list_prompts (some sess) = Except.ok SessionCall.listPrompts ∧
    list_resources none = Except.error FacadeError.assertionFailed ∧
    list_resources (some sess) = Except.ok SessionCall.listResources ∧
    list_resource_templates none = Except.error FacadeError.assertionFailed ∧
    list_resource_templates (some sess) =
      Except.ok SessionCall.listResourceTemplates ∧
    read_resource none res = Except.error FacadeError.assertionFailed ∧
    read_resource (some sess) res =
      Except.map SessionCall.readResource (AnyUrl.parse res) ∧
    subscribe_resource none res = Except.error FacadeError.assertionFailed ∧
    subscribe_resource (some sess) res =
      Except.map SessionCall.subscribeResource (AnyUrl.parse res) ∧
    unsubscribe_resource none res = Except.error FacadeError.assertionFailed ∧
    unsubscribe_resource (some sess) res =
      Except.map SessionCall.unsubscribeResource (AnyUrl.parse res) ∧
    send_notification none note = Except.error FacadeError.assertionFailed ∧
    send_notification (some sess) note =
      Except.ok (SessionCall.sendNotificationCall note) ∧
    send_ping none = Except.error FacadeError.attributeError ∧
    send_ping (some sess) = Except.ok SessionCall.sendPing ∧
    AnyUrl.parse "" = Except.error FacadeError.validationError ∧
    AnyUrl.parse "http://example.com/res" =
      Except.ok ⟨"http://example.com/res"⟩ ∧
    read_resource (some sess) "" = Except.error FacadeError.validationError ∧
    subscribe_resource (some sess) "" =
      Except.error FacadeError.validationError ∧
    unsubscribe_resource (some sess) "" =
      Except.error FacadeError.validationError ∧
    read_resource (some sess) "http://example.com/res" =
      Except.ok (SessionCall.readResource ⟨"http://example.com/res"⟩) := by
  intro sess nm res note prompt args
  exact ⟨rfl, rfl, rfl, rfl, rfl, rfl, rfl, rfl, rfl, rfl, rfl, rfl, rfl, rfl,
    rfl, bind_parse_eq_map sess (AnyUrl.parse res) SessionCall.readResource,
    rfl, bind_parse_eq_map sess (AnyUrl.parse res) SessionCall.subscribeResource,
    rfl, bind_parse_eq_map sess (AnyUrl.parse res) SessionCall.unsubscribeResource,
    rfl, rfl, rfl, rfl, rfl, rfl, rfl, rfl, rfl, rfl⟩

/-- C2 counterexample: the claim says `call_tool("", {})` on a connected client
fails with `InvalidArguments` and performs no remote round trip.  On the
concrete input (session bound, empty name, empty args) the code delegates the
call to the session unchanged — a remote round trip with the empty tool name —
and raises no local error. -/
theorem c2_counterexample :
    call_tool (some ClientSession.mk) "" [] =
      Except.ok (SessionCall.callTool "" []) ∧
    call_tool (some ClientSession.mk) "" [] ≠
      Except.error FacadeError.assertionFailed ∧
    call_tool (some ClientSession.mk) "" [] ≠
      Except.error FacadeError.attributeError := by
  refine ⟨rfl, ?_, ?_⟩ <;> intro hx <;> exact nomatch hx

/-- C2 amended: `call_tool` performs no local validation of its arguments:
whenever a session is bound, every invocation — the empty tool name included —
delegates exactly the given name and arguments to the session in one round
trip; without a session it fails with the assertion failure before any
delegation. -/
theorem c2_amended_no_validation :
    ∀ (sess : ClientSession) (nm : String) (args : ToolArgs),
    call_tool (some sess) nm args = Except.ok (SessionCall.callTool nm args) ∧
    call_tool none nm args = Except.error FacadeError.assertionFailed := by
  intro sess nm args
  exact ⟨rfl, rfl⟩

/-- C3 counterexample: the claim says that after a `connect()` whose readiness
wait timed out, the state is ERROR.  The exhibited execution — spawn, transport
and session entered, `initialize()` never answering, 30-unit timeout, internal
`disconnect()` with forced cancel — ends with `connect` returning False and the
state DISCONNECTED, not ERROR (line 116 of `disconnect` marks DISCONNECTED
unconditionally after the join). -/
theorem c3_counterexample :
    Reach sysTimeoutDone ∧
    sysTimeoutDone.caller = CallerPC.connDoneFalseTimeout ∧
    sysTimeoutDone.state = MCPConnectionState.DISCONNECTED ∧
    sysTimeoutDone.state ≠ MCPConnectionState.ERROR :=
  ⟨reach_sysTimeoutDone, rfl, rfl, by decide⟩

/-- C3 amended: if the readiness signal has not fired within the 30-unit
connect timeout, `connect()` forces an internal `disconnect()` and returns
failure; afterwards the client's state is DISCONNECTED (not ERROR) and the
client is connectable again: from the post-return configuration, a new
`connect()` passes the guard and spawns a fresh lifecycle task. -/
theorem c3_amended_timeout_disconnected :
    ∀ s : Sys, Reach s → s.caller = CallerPC.connDoneFalseTimeout →
    s.state = MCPConnectionState.DISCONNECTED ∧
    Step { s with caller := CallerPC.idle }
      { s with caller := CallerPC.connWaiting, state := .CONNECTING,
               shutdownEvent := false, connectedEvent := false,
               task := .atTransport, cancelRequested := false,
               spawnCount := s.spawnCount + 1,
               activeTasks := s.activeTasks + 1 } := by
  intro s hr hc
  have hi := inv_reach hr
  have h5 := hi.i5 hc
  refine ⟨h5.1, ?_⟩
  have hdone : ({ s with caller := CallerPC.idle } : Sys).task.isDone = true := by
    rcases h5.2 with h' | h' <;> simp [h', TaskPC.isDone]
  exact Step.connectStartSpawn rfl (Or.inl h5.1) hdone

/-- C3 amended witness: the amended theorem applied to the concrete post-timeout
configuration reached by the exhibited execution. -/
theorem c3_amended_timeout_disconnected_witness :
    sysTimeoutDone.state = MCPConnectionState.DISCONNECTED :=
  (c3_amended_timeout_disconnected sysTimeoutDone reach_sysTimeoutDone rfl).1

/-- C4: whenever `disconnect()` returns True the state is DISCONNECTED and no
lifecycle task is live, and the task's cleanup accounting holds on every
reachable configuration: a task suspended inside its `try` body has not yet run
the cleanup of its own spawn, a task at or past the close point has run it
exactly once per spawn, and before any spawn no cleanup has run — so the
cleanup runs exactly once per lifecycle task, also on the forced-cancellation
path. -/
theorem c4_disconnect_cleanup_once :
    ∀ s : Sys, Reach s →
    (s.caller = CallerPC.discDoneTrue →
      s.state = MCPConnectionState.DISCONNECTED ∧
      (s.task = TaskPC.noTask ∨ s.task = TaskPC.finished)) ∧
    (s.task.inTry = true → s.cleanupRuns + 1 = s.spawnCount) ∧
    (s.task = TaskPC.atClose ∨ s.task = TaskPC.finished →
      s.cleanupRuns = s.spawnCount) ∧
    (s.task = TaskPC.noTask → s.cleanupRuns = 0 ∧ s.spawnCount = 0) := by
  intro s hr
  have hi := inv_reach hr
  exact ⟨hi.i6, hi.i3a, hi.i3b, hi.i3c⟩

/-- C4 witness: the theorem applied to the concrete configuration reached by a
`disconnect()` on a connected client whose task was cancelled at the 10-unit
join timeout: the state is DISCONNECTED and the single spawned task ran its
cleanup exactly once. -/
theorem c4_disconnect_cleanup_once_witness :
    sysDiscDone.state = MCPConnectionState.DISCONNECTED ∧
    sysDiscDone.cleanupRuns = sysDiscDone.spawnCount ∧
    sysDiscDone.cleanupRuns = 1 :=
  ⟨((c4_disconnect_cleanup_once sysDiscDone reach_sysDiscDone).1 rfl).1,
   (c4_disconnect_cleanup_once sysDiscDone reach_sysDiscDone).2.2.1
     (Or.inr rfl), rfl⟩

/-- C5: `connect()` returns True only from the readiness wait after observing
the readiness event fired AND the state CONNECTED at that moment (so a
readiness signal fired with any other state — e.g. ERROR set by a failed
lifecycle task — can only produce a failure return), and every reachable
configuration in which `connect` has returned True has state CONNECTED with the
session bound. -/
theorem c5_connect_success_only_connected :
    (∀ s s' : Sys, Step s s' → s'.caller = CallerPC.connDoneTrue →
      s.caller = CallerPC.connDoneTrue ∨
      (s.caller = CallerPC.connWaiting ∧ s.connectedEvent = true ∧
       s.state = MCPConnectionState.CONNECTED)) ∧
    (∀ s : Sys, Reach s → s.caller = CallerPC.connDoneTrue →
      s.state = MCPConnectionState.CONNECTED ∧ s.sessionBound = true) := by
  constructor
  · intro s s' hst hc
    cases hst
    case connectTrue hcw he hs => exact Or.inr ⟨hcw, he, hs⟩
    all_goals first
      | exact Or.inl hc
      | exact nomatch hc
  · intro s hr hc
    have hi := inv_reach hr
    exact ⟨(hi.i7 hc).1, (hi.i7 hc).2.1⟩

/-- C5 witness: the second part applied at the concrete configuration where
`connect` just returned True. -/
theorem c5_connect_success_only_connected_witness :
    sysConnected.state = MCPConnectionState.CONNECTED ∧
    sysConnected.sessionBound = true :=
  c5_connect_success_only_connected.2 sysConnected reach_sysConnected rfl

/-- C6: a `connect()` issued while the state is neither DISCONNECTED nor ERROR
(so CONNECTING, CONNECTED or DISCONNECTING) can only take the guard step: it
never reaches the readiness wait, and when it returns the guard failure the
configuration is unchanged except for the recorded return — no state change,
no event reset, no task spawned.  Moreover a lifecycle task is only ever
spawned when none is live, and every reachable configuration has at most one
live lifecycle task. -/
theorem c6_connect_guard_no_side_effects :
    (∀ s s' : Sys, Step s s' → s.caller = CallerPC.idle →
      s.state ≠ MCPConnectionState.DISCONNECTED →
      s.state ≠ MCPConnectionState.ERROR →
      s'.caller ≠ CallerPC.connWaiting ∧
      (s'.caller = CallerPC.connDoneFalseGuard →
        s' = { s with caller := CallerPC.connDoneFalseGuard })) ∧
    (∀ s s' : Sys, Step s s' → s'.spawnCount ≠ s.spawnCount →
      s.task = TaskPC.noTask ∨ s.task = TaskPC.finished) ∧
    (∀ s : Sys, Reach s → s.activeTasks ≤ 1) := by
  refine ⟨?_, ?_, ?_⟩
  · intro s s' hst hc h1 h2
    cases hst
    case connectRejected => exact ⟨nofun, fun _ => rfl⟩
    case connectStartSpawn hcw hg ht =>
      rcases hg with hg | hg
      · exact absurd hg h1
      · exact absurd hg h2
    case connectStartNoSpawn hcw hg ht =>
      rcases hg with hg | hg
      · exact absurd hg h1
      · exact absurd hg h2
    all_goals exact ⟨(fun hw => by simp [hc] at hw),
      (fun hg2 => by simp [hc] at hg2)⟩
  · intro s s' hst hsp
    cases hst
    case connectStartSpawn hcw hg ht => exact TaskPC.isDone_cases ht
    all_goals exact absurd rfl hsp
  · intro s hr
    have h2 := (inv_reach hr).i2
    rw [h2]
    split <;> omega

/-- C6 witness: the guard part applied to the concrete rejected `connect()` on
the reachable CONNECTED-and-idle configuration, and the task bound applied to
the reachable connected configuration. -/
theorem c6_connect_guard_no_side_effects_witness :
    ({ sysConnectedIdle with caller := CallerPC.connDoneFalseGuard } : Sys).caller ≠
      CallerPC.connWaiting ∧
    sysConnected.activeTasks ≤ 1 :=
  ⟨(c6_connect_guard_no_side_effects.1 sysConnectedIdle
      { sysConnectedIdle with caller := CallerPC.connDoneFalseGuard }
      (Step.connectRejected rfl (by decide) (by decide)) rfl (by decide)
      (by decide)).1,
   c6_connect_guard_no_side_effects.2.2 sysConnected reach_sysConnected⟩

/-- C7 counterexample: the claim says that outside the CONNECTING construction
window the session is bound iff the state is CONNECTED.  The exhibited
execution reaches the configuration in the middle of a `disconnect()` on a
connected client — after line 99 set DISCONNECTING and before the lifecycle
task's cleanup ran — in which the session is still bound while the state is
DISCONNECTING, which is neither CONNECTED nor the excepted CONNECTING window. -/
theorem c7_counterexample :
    Reach sysDiscJoin ∧
    sysDiscJoin.sessionBound = true ∧
    sysDiscJoin.state = MCPConnectionState.DISCONNECTING ∧
    sysDiscJoin.state ≠ MCPConnectionState.CONNECTED ∧
    sysDiscJoin.state ≠ MCPConnectionState.CONNECTING :=
  ⟨reach_sysDiscJoin, rfl, rfl, by decide, by decide⟩

/-- C7 amended: on every reachable configuration, a bound session implies the
state is CONNECTING, CONNECTED or DISCONNECTING (the session also stays bound
during the DISCONNECTING window until the lifecycle task's cleanup runs); in
particular no session is bound while the state is DISCONNECTED or ERROR; the
session is cleared by the time the lifecycle task reaches its close point and
on every task exit; and while CONNECTED with no shutdown requested the session
is bound. -/
theorem c7_amended_session_state :
    ∀ s : Sys, Reach s →
    (s.sessionBound = true →
      s.state = MCPConnectionState.CONNECTING ∨
      s.state = MCPConnectionState.CONNECTED ∨
      s.state = MCPConnectionState.DISCONNECTING) ∧
    (s.state = MCPConnectionState.DISCONNECTED ∨
      s.state = MCPConnectionState.ERROR → s.sessionBound = false) ∧
    (s.task = TaskPC.atClose ∨ s.task = TaskPC.finished →
      s.sessionBound = false) ∧
    (s.state = MCPConnectionState.CONNECTED → s.shutdownEvent = false →
      s.sessionBound = true) := by
  intro s hr
  have hi := inv_reach hr
  refine ⟨?_, ?_, ?_, fun hs hsh => hi.i1b (Or.inr (hi.i8 hs hsh))⟩
  · intro hb
    rcases hi.i1a hb with h' | h'
    · rcases hi.i13 h' with h2 | h2
      · exact Or.inl h2
      · exact Or.inr (Or.inr h2)
    · rcases hi.i14 h' with h2 | h2
      · exact Or.inr (Or.inl h2)
      · exact Or.inr (Or.inr h2)
  · intro hs
    by_cases hb : s.sessionBound = true
    · rcases hi.i1a hb with h' | h'
      · rcases hi.i13 h' with h2 | h2 <;> rcases hs with hs | hs <;>
          rw [hs] at h2 <;> exact nomatch h2
      · rcases hi.i14 h' with h2 | h2 <;> rcases hs with hs | hs <;>
          rw [hs] at h2 <;> exact nomatch h2
    · simpa using hb
  · intro hc2
    by_cases hb : s.sessionBound = true
    · rcases hi.i1a hb with h' | h' <;> rcases hc2 with h2 | h2 <;>
        rw [h2] at h' <;> exact nomatch h'
    · simpa using hb

/-- C7 amended witness: the amended theorem applied to the concrete
mid-disconnect configuration with the session bound. -/
theorem c7_amended_session_state_witness :
    sysDiscJoin.state = MCPConnectionState.CONNECTING ∨
    sysDiscJoin.state = MCPConnectionState.CONNECTED ∨
    sysDiscJoin.state = MCPConnectionState.DISCONNECTING :=
  (c7_amended_session_state sysDiscJoin reach_sysDiscJoin).1 rfl

/-- C8: for every inbound push message, a tool-list-changed notification
invokes exactly one call of the tool-cache hook with this client's server id
and neither of the other two hooks; symmetrically for prompt-list-changed and
resource-list-changed; and any other message kind — unknown notification kinds,
request-responder values and exception payloads alike — is logged with exactly
one warning, invokes no cache hook, and leaves the client's attributes
unchanged. -/
theorem c8_dispatcher_effects :
    ∀ (serverId : String) (c : ClientView) (kind msg : String),
    message_handler_run serverId c ServerMessage.toolListChangedNotification =
      (c, ⟨[serverId], [], [], 0, 0, 1⟩) ∧
    message_handler_run serverId c ServerMessage.promptListChangedNotification =
      (c, ⟨[], [serverId], [], 0, 0, 1⟩) ∧
    message_handler_run serverId c ServerMessage.resourceListChangedNotification =
      (c, ⟨[], [], [serverId], 0, 0, 1⟩) ∧
    message_handler_run serverId c (ServerMessage.otherNotificationKind kind) =
      (c, ⟨[], [], [], 1, 0, 1⟩) ∧
    message_handler_run serverId c (ServerMessage.requestResponderValue kind) =
      (c, ⟨[], [], [], 1, 0, 1⟩) ∧
    message_handler_run serverId c (ServerMessage.exceptionPayload msg) =
      (c, ⟨[], [], [], 1, 0, 1⟩) := by
  intro serverId c kind msg
  exact ⟨rfl, rfl, rfl, rfl, rfl, rfl⟩

/-- C9: on every inbound message and every path of the dispatcher, the number
of cooperative scheduler checkpoints actually executed is zero — line 312 calls
`anyio.lowlevel.checkpoint()` without `await`, so the checkpoint coroutine is
created and immediately discarded (one unawaited coroutine per run) and control
is never yielded back to the event loop, contradicting both the specification
and the code's own line-311 comment. -/
theorem c9_checkpoint_never_executed :
    ∀ (serverId : String) (req : ServerMessage),
    (message_handler_callback serverId req).checkpointsExecuted = 0 ∧
    (message_handler_callback serverId req).unawaitedCheckpointCoroutines = 1 := by
  intro serverId req
  cases req <;> exact ⟨rfl, rfl⟩

/-- C10: `send_ping` performs no session check before delegating: with no
session bound it fails with the attribute-access error of dereferencing `None`,
while every other RPC facade operation fails with the assertion failure of
`assert self.session is not None` — two distinct failures. -/
theorem c10_send_ping_unchecked :
    ∀ (nm res note prompt : String) (args : ToolArgs),
    send_ping none = Except.error FacadeError.attributeError ∧
    get_tools none = Except.error FacadeError.assertionFailed ∧
    call_tool none nm args = Except.error FacadeError.assertionFailed ∧
    complete none prompt args = Except.error FacadeError.assertionFailed ∧
    get_prompt none nm args = Except.error FacadeError.assertionFailed ∧
    list_prompts none = Except.error FacadeError.assertionFailed ∧
    list_resources none = Except.error FacadeError.assertionFailed ∧
    list_resource_templates none = Except.error FacadeError.assertionFailed ∧
    read_resource none res = Except.error FacadeError.assertionFailed ∧
    subscribe_resource none res = Except.error FacadeError.assertionFailed ∧
    unsubscribe_resource none res = Except.error FacadeError.assertionFailed ∧
    send_notification none note = Except.error FacadeError.assertionFailed ∧
    FacadeError.attributeError ≠ FacadeError.assertionFailed := by
  intro nm res note prompt args
  exact ⟨rfl, rfl, rfl, rfl, rfl, rfl, rfl, rfl, rfl, rfl, rfl, rfl, by decide⟩

end KiraraMCP
